import Mathlib

/-!
Verification development for the Roadrakshak accident-analytics pipeline.

The definitions below are a shallow embedding of the Python sources:
  * `analytics.py` : the `_map_location_to_city` helper, the chart-data
    computations of `_generate_bar_chart` / `_generate_pie_chart`, and the
    core `analyze_accident_data` pipeline;
  * `vision_gemini.py` : the response-standardisation step of
    `analyze_image_with_gemini`.

A pandas DataFrame is embedded as a `Frame`: a list of `Row`s together with
one flag per optional/required column recording whether that column is
present in the CSV.  A missing cell (pandas `NaN`) inside a present column
is an `Option.none` field.  Errors are the exact strings the Python code
returns; an uncaught Python exception that the catch-all handler at the end
of `analyze_accident_data` converts to the generic message is embedded as
an `Except.error` of that generic message.

Library calls are modelled as follows: `pd.to_datetime(..., errors="coerce")`
on the `Date` column is modelled on ISO `YYYY-M-D` digit strings, producing
an abstract day code (the claims depend only on which strings parse and on
the induced grouping, never on calendar-correct weekday names);
`pd.to_datetime(..., format="%H:%M", errors="coerce").dt.hour` is modelled
by `parseHour`, and the dtype of the resulting `Hour` column is tracked:
with every `Time` value parsed it is integer-typed and the peak hour
prints as an integer, while one missing or unparsable value inserts a
`NaN`, promotes the column to float64 and makes the peak hour print with a
trailing `.0`; `Series.idxmax` is the first index attaining the maximum,
and `groupby` enumerates its keys in sorted order while `value_counts`
enumerates them by first appearance (ties in either are implementation
defined in pandas; every theorem below that touches a maximum only uses the
argmax property, which holds for any tie-break, or a tie-free concrete
input).  String lowering and stripping are modelled on ASCII, which covers
every city name and location string the repository uses.
-/

namespace Roadrakshak

/-- True when the first list is a leading segment of the second. -/
def leadsList : List Char → List Char → Bool
  | [], _ => true
  | _ :: _, [] => false
  | p :: ps, c :: cs => p == c && leadsList ps cs

/-- True when the first list occurs contiguously inside the second
(model of the Python substring test `p in s`). -/
def hasSubL (p : List Char) : List Char → Bool
  | [] => leadsList p []
  | c :: cs => leadsList p (c :: cs) || hasSubL p cs

/-- Python `pat in s` on strings. -/
def strContains (s pat : String) : Bool := hasSubL pat.data s.data

/-- ASCII lower-casing of one character (model of `str.lower`). -/
def lowerChar (c : Char) : Char :=
  if 'A' ≤ c ∧ c ≤ 'Z' then Char.ofNat (c.toNat + 32) else c

/-- ASCII whitespace test used by `str.strip`. -/
def isSpaceChar (c : Char) : Bool :=
  c == ' ' || c == '\t' || c == '\n' || c == '\r'

/-- Strip leading and trailing whitespace from a character list. -/
def stripChars (l : List Char) : List Char :=
  ((l.dropWhile isSpaceChar).reverse.dropWhile isSpaceChar).reverse

/-- Python `str.strip()`. -/
def stripStr (s : String) : String := ⟨stripChars s.data⟩

/-- Case-insensitive substring containment after stripping the haystack:
the per-row test of
`df.City.astype(str).str.strip().str.contains(selected, case=False)`.
The selected city names of the application are free of regex
metacharacters, so the pattern is matched literally. -/
def cityMatches (selected cityVal : String) : Bool :=
  hasSubL (selected.data.map lowerChar) ((stripChars cityVal.data).map lowerChar)

/-- The value pandas `astype(str)` shows for a possibly-missing cell:
a missing value prints as the string `nan`. -/
def locStr (o : Option String) : String := o.getD "nan"

/-- Location substrings mapped to Hyderabad in `_map_location_to_city`. -/
def hyderabad_locations : List String :=
  ["Madhapur", "Hitech City", "Gachibowli", "Raidurg Metro Road",
   "Banjara Hills", "Kukatpally", "Ameerpet", "LB Nagar", "Uppal Ring Road"]

/-- Location substrings mapped to Bengaluru in `_map_location_to_city`. -/
def bengaluru_locations : List String :=
  ["Silk Board", "Electronic", "Marathahalli", "Whitefield",
   "MG Road", "Hebbal Flyover", "Yeshwanthpur"]

/-- Location substrings mapped to Chennai in `_map_location_to_city`. -/
def chennai_locations : List String :=
  ["Guindy Junc", "T Nagar", "OMR Sholinganallur", "Anna Salai", "Poonamallee"]

/-- Location substrings mapped to Vijayawada in `_map_location_to_city`. -/
def vijayawada_locations : List String :=
  ["Benz Circle", "MG Road", "Ring Road", "Kanuru Road", "Ramavarapadu"]

/-- Embedding of `_map_location_to_city` from `analytics.py`: strips the
location text, checks the four city lists in order (Hyderabad, Bengaluru,
Chennai, Vijayawada) for a contained substring, and otherwise falls back
to the selected city from session state when that is set and differs from
the sentinel, else the marker `Unknown`.  A falsy session value (absent or
empty string) is `none` or `some` of the empty string here. -/
def map_location_to_city (location : String) (selected_city : Option String) : String :=
  let loc := stripStr location
  if hyderabad_locations.any (fun p => strContains loc p) then "Hyderabad"
  else if bengaluru_locations.any (fun p => strContains loc p) then "Bengaluru"
  else if chennai_locations.any (fun p => strContains loc p) then "Chennai"
  else if vijayawada_locations.any (fun p => strContains loc p) then "Vijayawada"
  else
    match selected_city with
    | some c => if c ≠ "" ∧ c ≠ "Select City..." then c else "Unknown"
    | none => "Unknown"

/-- Numeric value of an ASCII digit. -/
def digitVal (c : Char) : Option Nat :=
  if '0' ≤ c ∧ c ≤ '9' then some (c.toNat - '0'.toNat) else none

/-- Accumulator pass reading a digit string. -/
def natOfDigitsAux : List Char → Nat → Option Nat
  | [], acc => some acc
  | c :: cs, acc =>
    match digitVal c with
    | some d => natOfDigitsAux cs (acc * 10 + d)
    | none => none

/-- Reads a non-empty all-digit character list as a natural number. -/
def natOfDigits (l : List Char) : Option Nat :=
  if l.isEmpty then none else natOfDigitsAux l 0

/-- Splits a character list on a separator character (model of
`str.split`, keeping empty segments). -/
def splitOnChar (sep : Char) : List Char → List (List Char)
  | [] => [[]]
  | c :: cs =>
    let rest := splitOnChar sep cs
    if c == sep then [] :: rest
    else
      match rest with
      | [] => [[c]]
      | g :: gs => (c :: g) :: gs

/-- Model of `pd.to_datetime(values, errors="coerce")` on the `Date`
column, restricted to ISO `YYYY-M-D` digit strings: a parseable date
becomes an abstract day code, anything else becomes `none` (pandas `NaT`).
-/
def parseDate (s : String) : Option Nat :=
  match splitOnChar '-' s.data with
  | [y, m, d] =>
    match natOfDigits y, natOfDigits m, natOfDigits d with
    | some yn, some mn, some dn =>
      if y.length = 4 ∧ m.length ≤ 2 ∧ d.length ≤ 2 ∧
          1 ≤ mn ∧ mn ≤ 12 ∧ 1 ≤ dn ∧ dn ≤ 31 then
        some ((yn * 12 + (mn - 1)) * 31 + (dn - 1))
      else none
    | _, _, _ => none
  | _ => none

/-- Model of
`pd.to_datetime(values, format="%H:%M", errors="coerce").dt.hour`:
an `H:MM` 24-hour time yields its hour, anything unparsable yields `none`.
-/
def parseHour (s : String) : Option Nat :=
  match splitOnChar ':' s.data with
  | [h, m] =>
    match natOfDigits h, natOfDigits m with
    | some hn, some mn =>
      if h.length ≤ 2 ∧ m.length ≤ 2 ∧ hn ≤ 23 ∧ mn ≤ 59 then some hn else none
    | _, _ => none
  | _ => none

/-- Weekday names in the order pandas uses for day indices. -/
def dayNames : List String :=
  ["Monday", "Tuesday", "Wednesday", "Thursday", "Friday", "Saturday", "Sunday"]

/-- Model of `Series.dt.day_name()` on the abstract day code. -/
def day_name (code : Nat) : String := dayNames.getD (code % 7) "Monday"

/-- One CSV row.  A `none` field is a missing cell (pandas `NaN`) of a
present column; when the enclosing `Frame` flag says the column is absent,
the field is unread by the pipeline. -/
structure Row where
  location : Option String
  date : Option String
  time : Option String
  city : Option String
  accidents : Option Int
deriving Repr, DecidableEq

/-- The loaded CSV: rows plus one presence flag per column the pipeline
touches. -/
structure Frame where
  hasLocation : Bool
  hasDate : Bool
  hasTime : Bool
  hasCity : Bool
  hasAccidents : Bool
  rows : List Row
deriving Repr, DecidableEq

/-- A row that survived `dropna(subset=["Location", "Date"])`: its location
is a real string and its `Date` parsed, and the weekday name has been
derived. -/
structure NRow where
  location : String
  dateCode : Nat
  dayOfWeek : String
  time : Option String
  accidents : Option Int
deriving Repr, DecidableEq

/-- The `City` value of a row as the filter sees it: the explicit column
when present (`astype(str)` turns a missing cell into the string `nan`),
otherwise the value `_map_location_to_city` derives from the `Location`
cell with the selected city as fallback. -/
def cityOf (f : Frame) (selected : String) (r : Row) : String :=
  if f.hasCity then locStr r.city
  else map_location_to_city (locStr r.location) (some selected)

/-- The per-row boolean of the city filter in `analyze_accident_data`. -/
def matchRow (f : Frame) (selected : String) (r : Row) : Bool :=
  cityMatches selected (cityOf f selected r)

/-- Step 1b of `analyze_accident_data`: the rows of `df_filtered`. -/
def filterCity (f : Frame) (selected : String) : List Row :=
  f.rows.filter (matchRow f selected)

/-- Date parsing plus `dropna(subset=["Location", "Date"])` plus the
`DayOfWeek` derivation, for one row. -/
def normalizeRow (r : Row) : Option NRow :=
  match r.location, r.date.bind parseDate with
  | some l, some d => some ⟨l, d, day_name d, r.time, r.accidents⟩
  | _, _ => none

/-- Lines 128-130 of `analytics.py`: parse dates, drop rows with a missing
location or an unparsable date, derive the weekday name. -/
def normalize (rows : List Row) : List NRow := rows.filterMap normalizeRow

/-- First element attaining the maximum of `f` (model of `Series.idxmax`
over an index list). -/
def argmaxBy {α : Type} (f : α → Int) : List α → Option α
  | [] => none
  | k :: ks =>
    match argmaxBy f ks with
    | none => some k
    | some m => if f k < f m then some m else some k

/-- Deduplication keeping the first occurrence of each element. -/
def dedupFirst {α : Type} [DecidableEq α] : List α → List α
  | [] => []
  | x :: xs => x :: (dedupFirst xs).filter (fun y => y ≠ x)

/-- Lexicographic comparison of character lists by code point. -/
def listLe : List Char → List Char → Bool
  | [], _ => true
  | _ :: _, [] => false
  | a :: as, b :: bs =>
    if a.toNat < b.toNat then true
    else if b.toNat < a.toNat then false
    else listLe as bs

/-- Lexicographic string comparison by code point, the order pandas uses
for string group keys. -/
def strLe (s t : String) : Bool := listLe s.data t.data

/-- Insertion into a sorted list of strings. -/
def insertSorted (x : String) : List String → List String
  | [] => [x]
  | y :: ys => if strLe x y then x :: y :: ys else y :: insertSorted x ys

/-- Sorting a list of strings (model of the sorted key order a pandas
`groupby` enumerates). -/
def sortStr (l : List String) : List String := l.foldr insertSorted []

/-- Sum of the `accidents` column over the rows at one location
(`groupby("Location")["accidents"].sum()` at one key; pandas sums with
`skipna`, so a missing cell contributes zero). -/
def groupSum (rows : List NRow) (loc : String) : Int :=
  rows.foldl (fun acc r => if r.location = loc then acc + r.accidents.getD 0 else acc) 0

/-- Number of rows at one location (`value_counts()` at one key). -/
def locCount (rows : List NRow) (loc : String) : Nat :=
  rows.countP (fun r => r.location = loc)

/-- The `total_accidents` computation of lines 133-141: sum of the
`accidents` column when present, else the row count. -/
def totalOf (hasAcc : Bool) (rows : List NRow) : Int :=
  if hasAcc then rows.foldl (fun acc r => acc + r.accidents.getD 0) 0
  else (rows.length : Int)

/-- The `high_risk_zone` computation of lines 133-142: argmax of the
grouped `accidents` sum over the sorted location keys when the column is
present, else the most frequent location (`value_counts().idxmax()`).
`none` models the `ValueError` that `idxmax` raises on an empty series. -/
def zoneOf (hasAcc : Bool) (rows : List NRow) : Option String :=
  if hasAcc then argmaxBy (groupSum rows) (sortStr (dedupFirst (rows.map (fun r => r.location))))
  else argmaxBy (fun l => (locCount rows l : Int)) (dedupFirst (rows.map (fun r => r.location)))

/-- Hour values of the rows whose `Time` parsed. -/
def hoursOf (rows : List NRow) : List Nat :=
  rows.filterMap (fun r => r.time.bind parseHour)

/-- A surviving row whose `Time` cell parses in `%H:%M` format. -/
def timeValid (r : NRow) : Bool := (r.time.bind parseHour).isSome

/-- True when every row's `Time` cell parses.  Then the derived `Hour`
column of line 149 holds no `NaN` and keeps an integer dtype; a single
missing or unparsable `Time` value puts a `NaN` in it and pandas promotes
the whole column to float64, a promotion `dropna` does not undo. -/
def allTimesValid (rows : List NRow) : Bool := rows.all timeValid

/-- The peak-time string of line 153.  The f-string prints the
`value_counts().idxmax()` value: an integer (`10`) when the `Hour` column
is integer-typed, a numpy float (`10.0`, and `peak_hour + 1` likewise
`11.0`) when the column was promoted to float64. -/
def peakStr (isInt : Bool) (h : Nat) : String :=
  if isInt then toString h ++ ":00 - " ++ toString (h + 1) ++ ":00"
  else toString h ++ ".0:00 - " ++ toString (h + 1) ++ ".0:00"

/-- The marker line 145 installs when no peak hour is computed. -/
def peakNA : String := "N/A (Time data missing in CSV)"

/-- Lines 145-153 of `analytics.py`: when a `Time` column exists, rows with
an unparsable time are dropped from `df_filtered` in place, and the most
frequent hour of the remaining rows (when any) gives the peak-time string,
formatted as an integer hour only when every incoming row's `Time` parsed
(otherwise the float64 `Hour` dtype shows through).  Returns the string
together with the rows `df_filtered` holds afterwards. -/
def peak_time_of (hasTime : Bool) (rows : List NRow) : String × List NRow :=
  if hasTime then
    let kept := rows.filter timeValid
    if kept.isEmpty then (peakNA, kept)
    else
      match argmaxBy (fun h => ((hoursOf kept).count h : Int)) (dedupFirst (hoursOf kept)) with
      | some h => (peakStr (allTimesValid rows) h, kept)
      | none => (peakNA, kept)
  else (peakNA, rows)

/-- Take the k keys with the largest `f`, first-attained first (model of
`nlargest` and of the head of a descending `value_counts`). -/
def topK {α : Type} [DecidableEq α] (f : α → Int) : Nat → List α → List (α × Int)
  | 0, _ => []
  | _, [] => []
  | Nat.succ k, keys =>
    match argmaxBy f keys with
    | none => []
    | some m => (m, f m) :: topK f k (keys.filter (fun y => y ≠ m))

/-- Chart data of `_generate_bar_chart`: the empty string it returns for an
empty frame is the empty list here; otherwise the top five locations by
grouped `accidents` sum (column present) or by row count. -/
def barChartData (hasAcc : Bool) (rows : List NRow) : List (String × Int) :=
  if rows.isEmpty then []
  else if hasAcc then
    topK (groupSum rows) 5 (sortStr (dedupFirst (rows.map (fun r => r.location))))
  else
    topK (fun l => (locCount rows l : Int)) 5 (dedupFirst (rows.map (fun r => r.location)))

/-- Sum of the `accidents` column over the rows of one weekday. -/
def daySum (rows : List NRow) (d : String) : Int :=
  rows.foldl (fun acc r => if r.dayOfWeek = d then acc + r.accidents.getD 0 else acc) 0

/-- Number of rows of one weekday. -/
def dayCount (rows : List NRow) (d : String) : Nat :=
  rows.countP (fun r => r.dayOfWeek = d)

/-- Chart data of `_generate_pie_chart`: per-weekday grouped `accidents`
sum (column present) or row count, over whichever weekday names occur.
The presentation order of the slices carries no information in the pie
chart and is normalised to key order here. -/
def pieChartData (hasAcc : Bool) (rows : List NRow) : List (String × Int) :=
  if rows.isEmpty then []
  else if hasAcc then
    (sortStr (dedupFirst (rows.map (fun r => r.dayOfWeek)))).map (fun d => (d, daySum rows d))
  else
    (dedupFirst (rows.map (fun r => r.dayOfWeek))).map (fun d => (d, (dayCount rows d : Nat)))

/-- The result dictionary `analyze_accident_data` returns on success, with
the two chart images replaced by the chart data they plot. -/
structure AnalyticsData where
  high_risk_zone : String
  peak_time : String
  total_accidents : Int
  bar_chart : List (String × Int)
  pie_chart : List (String × Int)
  city : String
deriving Repr, DecidableEq

/-- Decidable equality of tagged results, for evaluating the pipeline on
concrete frames. -/
instance {e a : Type} [DecidableEq e] [DecidableEq a] : DecidableEq (Except e a) :=
  fun x y =>
    match x, y with
    | .ok u, .ok v => if h : u = v then isTrue (by rw [h]) else isFalse (by simp [h])
    | .error u, .error v => if h : u = v then isTrue (by rw [h]) else isFalse (by simp [h])
    | .ok _, .error _ => isFalse (by simp)
    | .error _, .ok _ => isFalse (by simp)

/-- The catch-all message of line 173, wrapping the exception text. -/
def genericError (e : String) : String :=
  "An unexpected error occurred during analysis: " ++ e

/-- The message of line 124 for an empty filtered frame. -/
def noMatchError (city : String) : String :=
  "Error: No accident data found in the CSV for the selected city: " ++ city ++ "."

/-- The message of line 107 for a missing or sentinel city selection. -/
def noCityError : String :=
  "Error: Cannot analyze data. Please select a City on the main dashboard first."

/-- Truthiness test of line 106: the session value must exist, be
non-empty, and differ from the sentinel. -/
def validCity (selected : Option String) : Bool :=
  match selected with
  | none => false
  | some c => c != "" && c != "Select City..."

/-- Embedding of `analyze_accident_data` (lines 102-173 of `analytics.py`),
with the CSV already loaded into a `Frame` (the file-existence check of
line 111 is outside the data model).  Each `Except.error` is the exact
string the Python function returns; accessing an absent column raises a
`KeyError` whose text the catch-all handler embeds into the generic
message, and `idxmax` on an empty grouping raises the `ValueError` shown.
-/
def analyze_accident_data (selected_city : Option String) (df : Frame) :
    Except String AnalyticsData :=
  if ¬ validCity selected_city then .error noCityError
  else if ¬ df.hasCity ∧ ¬ df.hasLocation then .error (genericError "'Location'")
  else if (filterCity df (selected_city.getD "")).isEmpty then
    .error (noMatchError (selected_city.getD ""))
  else if ¬ df.hasDate then .error (genericError "'Date'")
  else if df.hasCity ∧ ¬ df.hasLocation then .error (genericError "['Location']")
  else
    match zoneOf df.hasAccidents (normalize (filterCity df (selected_city.getD ""))) with
    | none => .error (genericError "attempt to get argmax of an empty sequence")
    | some zone =>
      .ok { high_risk_zone := zone,
            peak_time :=
              (peak_time_of df.hasTime (normalize (filterCity df (selected_city.getD "")))).1,
            total_accidents :=
              totalOf df.hasAccidents (normalize (filterCity df (selected_city.getD ""))),
            bar_chart := barChartData df.hasAccidents
              (peak_time_of df.hasTime (normalize (filterCity df (selected_city.getD "")))).2,
            pie_chart := pieChartData df.hasAccidents
              (peak_time_of df.hasTime (normalize (filterCity df (selected_city.getD "")))).2,
            city := selected_city.getD "" }


/-- Parsed JSON response of the Gemini vision call, typed by the response
schema `analyze_image_with_gemini` requests; a `none` field is a key absent
from the response (the schema marks all keys required, but the reading code
still defends with `dict.get` defaults). -/
structure GeminiResponse where
  location_estimate : Option String
  potholes : Option Int
  broken_lights : Option Int
  large_cracks : Option Int
  ai_confidence_summary : Option String
deriving Repr, DecidableEq

/-- The standardized hazard record `analyze_image_with_gemini` stores in
session state.  It has exactly the four fields below: large cracks have no
field of their own at this interface. -/
structure HazardData where
  potholes : Int
  broken_lights : Int
  location : String
  summary : String
deriving Repr, DecidableEq

/-- Lines 76-83 of `vision_gemini.py`: key standardisation of the parsed
response, folding `large_cracks` into `potholes`. -/
def standardize_hazard (h : GeminiResponse) : HazardData :=
  { potholes := h.potholes.getD 0 + h.large_cracks.getD 0,
    broken_lights := h.broken_lights.getD 0,
    location := h.location_estimate.getD "Location Unknown",
    summary := h.ai_confidence_summary.getD "Analysis complete." }


/-- Three rows at locations A, A, B, explicit `City` column, no `accidents`
column (the first concrete scenario of the aggregation spec). -/
def frameAAB : Frame :=
  ⟨true, true, false, true, false,
   [⟨some "A", some "2024-01-01", none, some "Bengaluru", none⟩,
    ⟨some "A", some "2024-01-01", none, some "Bengaluru", none⟩,
    ⟨some "B", some "2024-01-01", none, some "Bengaluru", none⟩]⟩

/-- Two rows with `accidents` 5 and 10 at locations X and Y (the second
concrete scenario of the aggregation spec). -/
def frameXY : Frame :=
  ⟨true, true, false, true, true,
   [⟨some "X", some "2024-01-01", none, some "Bengaluru", some 5⟩,
    ⟨some "Y", some "2024-01-01", none, some "Bengaluru", some 10⟩]⟩

/-- Two city-matching rows of which one has an unparsable `Date`. -/
def frameBadDate : Frame :=
  ⟨true, true, false, true, false,
   [⟨some "A", some "2024-01-01", none, some "Bengaluru", none⟩,
    ⟨some "B", some "garbage", none, some "Bengaluru", none⟩]⟩

/-- The analysis result the pipeline produces on `frameBadDate`. -/
def resBadDate : AnalyticsData :=
  ⟨"A", peakNA, 1, [("A", 1)], [("Tuesday", 1)], "Bengaluru"⟩

/-- A frame whose `Date` column is absent. -/
def frameNoDate : Frame :=
  ⟨true, false, false, true, false,
   [⟨some "A", none, none, some "Bengaluru", none⟩]⟩

/-- Two normalizable rows with a `Time` column, one time parseable and one
not. -/
def frameMixedTime : Frame :=
  ⟨true, true, true, true, false,
   [⟨some "A", some "2024-01-01", some "10:00", some "Bengaluru", none⟩,
    ⟨some "B", some "2024-01-01", some "bad", some "Bengaluru", none⟩]⟩

/-- The analysis result the pipeline produces on `frameMixedTime`: the
unparsable time promotes the `Hour` column to float64, so the peak hour
prints with a trailing `.0`. -/
def resMixedTime : AnalyticsData :=
  ⟨"A", "10.0:00 - 11.0:00", 2, [("A", 1)], [("Tuesday", 1)], "Bengaluru"⟩

/-- A frame with a `Time` column none of whose values parses. -/
def frameAllBadTime : Frame :=
  ⟨true, true, true, true, false,
   [⟨some "A", some "2024-01-01", some "zzz", some "Bengaluru", none⟩]⟩

/-- One city-matching row whose `Date` does not parse: city filtering keeps
it, normalization drops it. -/
def frameUnparsableOnly : Frame :=
  ⟨true, true, false, true, false,
   [⟨some "B", some "garbage", none, some "Bengaluru", none⟩]⟩

/-- A frame with the full schema and zero rows. -/
def frameEmptyRows : Frame := ⟨true, true, false, true, false, []⟩

/-- Normalized rows matching `frameXY` after filtering. -/
def nrowsXY : List NRow :=
  [⟨"X", 752928, "Tuesday", none, some 5⟩, ⟨"Y", 752928, "Tuesday", none, some 10⟩]

/-- One normalized row carrying a parseable time. -/
def nrowsT : List NRow := [⟨"A", 752928, "Tuesday", some "10:00", none⟩]

/-- An empty key list is the only way `argmaxBy` returns nothing. -/
theorem argmaxBy_eq_none {α : Type} (f : α → Int) :
    ∀ l : List α, argmaxBy f l = none ↔ l = []
  | [] => by simp [argmaxBy]
  | k :: ks => by
    cases hks : argmaxBy f ks with
    | none => simp [argmaxBy, hks]
    | some m =>
      simp only [argmaxBy, hks]
      split <;> simp

/-- The argmax is one of the keys. -/
theorem argmaxBy_mem {α : Type} (f : α → Int) :
    ∀ (l : List α) (x : α), argmaxBy f l = some x → x ∈ l
  | [], x, h => by simp [argmaxBy] at h
  | k :: ks, x, h => by
    cases hks : argmaxBy f ks with
    | none =>
      simp only [argmaxBy, hks, Option.some.injEq] at h
      subst h
      exact List.mem_cons_self _ _
    | some m =>
      simp only [argmaxBy, hks] at h
      by_cases hlt : f k < f m
      · rw [if_pos hlt] at h
        injection h with h
        subst h
        exact List.mem_cons_of_mem _ (argmaxBy_mem f ks _ hks)
      · rw [if_neg hlt] at h
        injection h with h
        subst h
        exact List.mem_cons_self _ _

/-- No key beats the argmax. -/
theorem argmaxBy_le {α : Type} (f : α → Int) :
    ∀ (l : List α) (x y : α), argmaxBy f l = some x → y ∈ l → f y ≤ f x
  | [], x, y, h, hy => by simp at hy
  | k :: ks, x, y, h, hy => by
    cases hks : argmaxBy f ks with
    | none =>
      simp only [argmaxBy, hks, Option.some.injEq] at h
      subst h
      have hnil : ks = [] := (argmaxBy_eq_none f ks).1 hks
      subst hnil
      simp at hy
      subst hy
      exact le_refl _
    | some m =>
      simp only [argmaxBy, hks] at h
      rcases List.mem_cons.1 hy with rfl | hyk
      · by_cases hlt : f y < f m
        · rw [if_pos hlt] at h
          injection h with h
          subst h
          exact le_of_lt hlt
        · rw [if_neg hlt] at h
          injection h with h
          subst h
          exact le_refl _
      · have hle := argmaxBy_le f ks m y hks hyk
        by_cases hlt : f k < f m
        · rw [if_pos hlt] at h
          injection h with h
          subst h
          exact hle
        · rw [if_neg hlt] at h
          injection h with h
          subst h
          exact le_trans hle (not_lt.1 hlt)

/-- Deduplication preserves membership. -/
theorem mem_dedupFirst {α : Type} [DecidableEq α] :
    ∀ (l : List α) (x : α), x ∈ dedupFirst l ↔ x ∈ l
  | [], x => by simp [dedupFirst]
  | a :: as, x => by
    simp only [dedupFirst, List.mem_cons, List.mem_filter]
    constructor
    · rintro (rfl | ⟨hx, _⟩)
      · exact .inl rfl
      · exact .inr ((mem_dedupFirst as x).1 hx)
    · rintro (rfl | hx)
      · exact .inl rfl
      · by_cases hxa : x = a
        · exact .inl hxa
        · exact .inr ⟨(mem_dedupFirst as x).2 hx, by simp [hxa]⟩

/-- Insertion preserves membership. -/
theorem mem_insertSorted (x y : String) :
    ∀ l : List String, y ∈ insertSorted x l ↔ y = x ∨ y ∈ l
  | [] => by simp [insertSorted]
  | a :: as => by
    simp only [insertSorted]
    split
    · simp [List.mem_cons]
    · simp only [List.mem_cons, mem_insertSorted x y as]
      tauto

/-- Sorting preserves membership. -/
theorem mem_sortStr : ∀ (l : List String) (x : String), x ∈ sortStr l ↔ x ∈ l
  | [], x => by simp [sortStr]
  | a :: as, x => by
    have ih := mem_sortStr as x
    simp only [sortStr, List.foldr_cons] at *
    rw [mem_insertSorted, ih]
    simp [List.mem_cons]

/-- Deduplication keeps a non-empty list non-empty. -/
theorem dedupFirst_ne_nil {α : Type} [DecidableEq α] (l : List α) (h : l ≠ []) :
    dedupFirst l ≠ [] := by
  cases l with
  | nil => exact absurd rfl h
  | cons a as => simp [dedupFirst]

/-- Insertion never yields the empty list. -/
theorem insertSorted_ne_nil (x : String) : ∀ l : List String, insertSorted x l ≠ []
  | [] => by simp [insertSorted]
  | a :: as => by
    simp only [insertSorted]
    split <;> simp

/-- Sorting keeps a non-empty list non-empty. -/
theorem sortStr_ne_nil (l : List String) (h : l ≠ []) : sortStr l ≠ [] := by
  cases l with
  | nil => exact absurd rfl h
  | cons a as =>
    simp only [sortStr, List.foldr_cons]
    exact insertSorted_ne_nil a _

/-- A non-empty normalized set always yields a high-risk zone. -/
theorem zoneOf_isSome (b : Bool) (rows : List NRow) (h : rows ≠ []) :
    (zoneOf b rows).isSome := by
  have hmap : rows.map (fun r => r.location) ≠ [] := by
    cases rows with
    | nil => exact absurd rfl h
    | cons r rs => simp
  have hded : dedupFirst (rows.map (fun r => r.location)) ≠ [] :=
    dedupFirst_ne_nil _ hmap
  unfold zoneOf
  split
  · have hsorted := sortStr_ne_nil _ hded
    cases hz : argmaxBy (groupSum rows)
        (sortStr (dedupFirst (rows.map (fun r => r.location)))) with
    | none => exact absurd ((argmaxBy_eq_none _ _).1 hz) hsorted
    | some z => simp
  · cases hz : argmaxBy (fun l => (locCount rows l : Int))
        (dedupFirst (rows.map (fun r => r.location))) with
    | none => exact absurd ((argmaxBy_eq_none _ _).1 hz) hded
    | some z => simp

/-- The empty grouping has no argmax, in either aggregation mode. -/
theorem zoneOf_nil (b : Bool) : zoneOf b [] = none := by
  cases b <;> rfl

/-- A left fold of additions is the sum of the mapped list. -/
theorem foldl_add_eq_sum {α : Type} (g : α → Int) :
    ∀ (l : List α) (a : Int), l.foldl (fun acc r => acc + g r) a = a + (l.map g).sum
  | [], a => by simp
  | r :: rs, a => by
    simp only [List.foldl_cons, List.map_cons, List.sum_cons]
    rw [foldl_add_eq_sum g rs (a + g r)]
    ring

/-- Normalization keeps exactly the rows with a location and a parseable
date. -/
theorem length_normalize :
    ∀ rows : List Row, (normalize rows).length =
      rows.countP (fun r => r.location.isSome && (r.date.bind parseDate).isSome)
  | [] => rfl
  | r :: rs => by
    have ih := length_normalize rs
    simp only [normalize, List.filterMap_cons, List.countP_cons] at *
    cases hl : r.location with
    | none => simp [normalizeRow, hl, ih]
    | some l =>
      cases hd : r.date.bind parseDate with
      | none => simp [normalizeRow, hl, hd, ih]
      | some d => simp [normalizeRow, hl, hd, ih]

/-- A parsed hour is a 24-hour clock value. -/
theorem parseHour_le (s : String) (n : Nat) (hp : parseHour s = some n) : n ≤ 23 := by
  unfold parseHour at hp
  split at hp
  · split at hp
    · split at hp
      · next hcond =>
        injection hp with hp
        subst hp
        exact hcond.2.2.1
      · exact absurd hp (by simp)
    · exact absurd hp (by simp)
  · exact absurd hp (by simp)

/-- Every collected hour value is a 24-hour clock value. -/
theorem mem_hoursOf_le (rows : List NRow) (h : Nat) (hm : h ∈ hoursOf rows) : h ≤ 23 := by
  rcases List.mem_filterMap.1 hm with ⟨r, _, hr⟩
  cases ht : r.time with
  | none =>
    rw [ht] at hr
    simp at hr
  | some t =>
    rw [ht] at hr
    exact parseHour_le t h (by simpa using hr)

/-- Rows surviving the time filter contribute at least one hour value. -/
theorem hoursOf_filter_ne_nil (rows : List NRow) (h : rows.filter timeValid ≠ []) :
    hoursOf (rows.filter timeValid) ≠ [] := by
  cases hk : rows.filter timeValid with
  | nil => exact absurd hk h
  | cons k ks =>
    have hkmem : k ∈ rows.filter timeValid := by
      rw [hk]
      exact List.mem_cons_self _ _
    have hv : timeValid k := (List.mem_filter.1 hkmem).2
    unfold timeValid at hv
    cases hh : k.time.bind parseHour with
    | none =>
      rw [hh] at hv
      simp at hv
    | some n =>
      unfold hoursOf
      simp [List.filterMap_cons, hh]

/-- Success of the pipeline pins every field of the result to the staged
computations over the filtered, normalized rows. -/
theorem analyze_ok_inv (sc : Option String) (df : Frame) (res : AnalyticsData)
    (h : analyze_accident_data sc df = .ok res) :
    validCity sc = true ∧
    filterCity df (sc.getD "") ≠ [] ∧
    df.hasDate = true ∧
    zoneOf df.hasAccidents (normalize (filterCity df (sc.getD ""))) = some res.high_risk_zone ∧
    res.total_accidents = totalOf df.hasAccidents (normalize (filterCity df (sc.getD ""))) ∧
    res.peak_time = (peak_time_of df.hasTime (normalize (filterCity df (sc.getD "")))).1 ∧
    res.bar_chart = barChartData df.hasAccidents
      (peak_time_of df.hasTime (normalize (filterCity df (sc.getD "")))).2 ∧
    res.pie_chart = pieChartData df.hasAccidents
      (peak_time_of df.hasTime (normalize (filterCity df (sc.getD "")))).2 ∧
    res.city = sc.getD "" := by
  unfold analyze_accident_data at h
  split at h
  · exact absurd h (by simp)
  next hv =>
    split at h
    · exact absurd h (by simp)
    next hcl =>
      split at h
      · exact absurd h (by simp)
      next hemp =>
        split at h
        · exact absurd h (by simp)
        next hd =>
          split at h
          · exact absurd h (by simp)
          next hloc =>
            split at h
            · exact absurd h (by simp)
            next zone hz =>
              injection h with h
              subst h
              refine ⟨not_not.1 hv, ?_, not_not.1 hd, hz, rfl, rfl, rfl, rfl, rfl⟩
              intro hnil
              exact hemp (by simp [hnil])


/-- Success is exactly what a `some` value of `toOption` witnesses. -/
theorem except_toOption_ok {e a : Type} (x : Except e a) (v : a)
    (h : x.toOption = some v) : x = .ok v := by
  cases x with
  | ok u =>
    simp only [Except.toOption, Option.some.injEq] at h
    rw [h]
  | error u => simp [Except.toOption] at h

/-- C1: over the dataset handed to aggregation, a present `accidents`
column makes the total its sum over all rows and the high-risk zone a
location maximising the per-location summed `accidents`; an absent column
makes the total the row count and the zone a most frequent location; the
two concrete scenarios evaluate to total 3 with zone A and total 15 with
zone Y. -/
theorem c1_aggregation_totals :
    (∀ (b : Bool) (rows : List NRow), rows ≠ [] → (zoneOf b rows).isSome) ∧
    (∀ rows : List NRow,
      totalOf true rows = (rows.map (fun r => r.accidents.getD 0)).sum) ∧
    (∀ rows : List NRow, totalOf false rows = (rows.length : Int)) ∧
    (∀ (rows : List NRow) (z : String), zoneOf true rows = some z →
      z ∈ rows.map (fun r => r.location) ∧
      ∀ l ∈ rows.map (fun r => r.location), groupSum rows l ≤ groupSum rows z) ∧
    (∀ (rows : List NRow) (z : String), zoneOf false rows = some z →
      z ∈ rows.map (fun r => r.location) ∧
      ∀ l ∈ rows.map (fun r => r.location), locCount rows l ≤ locCount rows z) ∧
    (analyze_accident_data (some "Bengaluru") frameAAB).toOption.map
      (fun r => (r.total_accidents, r.high_risk_zone)) = some (3, "A") ∧
    (analyze_accident_data (some "Bengaluru") frameXY).toOption.map
      (fun r => (r.total_accidents, r.high_risk_zone)) = some (15, "Y") := by
  refine ⟨zoneOf_isSome, ?_, ?_, ?_, ?_, by decide, by decide⟩
  · intro rows
    simp only [totalOf, if_pos rfl]
    simpa using foldl_add_eq_sum (fun r : NRow => r.accidents.getD 0) rows 0
  · intro rows
    simp [totalOf]
  · intro rows z hz
    have hz' : argmaxBy (groupSum rows)
        (sortStr (dedupFirst (rows.map (fun r => r.location)))) = some z := by
      simpa [zoneOf] using hz
    constructor
    · exact (mem_dedupFirst _ _).1 ((mem_sortStr _ _).1 (argmaxBy_mem _ _ _ hz'))
    · intro l hl
      exact argmaxBy_le _ _ _ _ hz'
        ((mem_sortStr _ _).2 ((mem_dedupFirst _ _).2 hl))
  · intro rows z hz
    have hz' : argmaxBy (fun l => (locCount rows l : Int))
        (dedupFirst (rows.map (fun r => r.location))) = some z := by
      simpa [zoneOf] using hz
    constructor
    · exact (mem_dedupFirst _ _).1 (argmaxBy_mem _ _ _ hz')
    · intro l hl
      exact_mod_cast argmaxBy_le _ _ _ _ hz' ((mem_dedupFirst _ _).2 hl)

/-- C1 witness: `c1_aggregation_totals` instantiated on the concrete
two-row aggregation input of the second scenario. -/
theorem c1_aggregation_totals_witness :
    (zoneOf true nrowsXY).isSome ∧ groupSum nrowsXY "X" ≤ groupSum nrowsXY "Y" :=
  ⟨c1_aggregation_totals.1 true nrowsXY (by decide),
   (c1_aggregation_totals.2.2.2.1 nrowsXY "Y" (by decide)).2 "X" (by decide)⟩

/-- C2 counterexample: on `frameBadDate` two rows match the requested city
but the reported total is 1, because the row with the unparsable `Date` is
dropped before totalling; the claimed equality with the count over exactly
the city-matching rows fails. -/
theorem c2_counterexample :
    (filterCity frameBadDate "Bengaluru").length = 2 ∧
    (analyze_accident_data (some "Bengaluru") frameBadDate).toOption.map
      (fun r => r.total_accidents) = some 1 ∧
    (analyze_accident_data (some "Bengaluru") frameBadDate).toOption.map
      (fun r => r.total_accidents) ≠
      some (((filterCity frameBadDate "Bengaluru").length : Nat) : Int) := by
  refine ⟨by decide, by decide, ?_⟩
  decide

/-- C2 (amended): the rows that participate in aggregation are exactly the
rows whose city value (explicit `City` column, else derived from
`Location`) contains the requested city as a trimmed case-insensitive
substring AND that survive normalization (non-null `Location`, parseable
`Date`); the total is computed over that normalized subset; substring
containment also matches a longer city value such as
`Greater Bengaluru Metro`. -/
theorem c2_filter_and_total :
    (∀ (df : Frame) (city : String) (r : Row),
      r ∈ filterCity df city ↔ r ∈ df.rows ∧ matchRow df city r = true) ∧
    (∀ rows : List Row, (normalize rows).length =
      rows.countP (fun r => r.location.isSome && (r.date.bind parseDate).isSome)) ∧
    (∀ (sc : Option String) (df : Frame) (res : AnalyticsData),
      analyze_accident_data sc df = .ok res →
      res.total_accidents = totalOf df.hasAccidents (normalize (filterCity df (sc.getD "")))) ∧
    cityMatches "Bengaluru" "Greater Bengaluru Metro" = true := by
  refine ⟨?_, length_normalize, ?_, by decide⟩
  · intro df city r
    simp [filterCity, List.mem_filter]
  · intro sc df res h
    exact (analyze_ok_inv sc df res h).2.2.2.2.1

/-- C2 witness: the amended total equation instantiated on
`frameBadDate`, whose pipeline run succeeds with total 1. -/
theorem c2_filter_and_total_witness :
    resBadDate.total_accidents =
      totalOf frameBadDate.hasAccidents (normalize (filterCity frameBadDate "Bengaluru")) :=
  c2_filter_and_total.2.2.1 (some "Bengaluru") frameBadDate resBadDate (by decide)

/-- C3 counterexample: the curated lookup lists overlap; the location text
`MG Road` contains a substring of both the Bengaluru list and the
Vijayawada list, two distinct cities, refuting non-overlap; the mapper
resolves it to Bengaluru, the earlier city in checking order. -/
theorem c3_counterexample :
    bengaluru_locations.any (fun p => strContains (stripStr "MG Road") p) = true ∧
    vijayawada_locations.any (fun p => strContains (stripStr "MG Road") p) = true ∧
    ("Bengaluru" : String) ≠ "Vijayawada" ∧
    map_location_to_city "MG Road" none = "Bengaluru" := by
  decide

/-- C3 (amended): the mapper checks the cities in the fixed order
Hyderabad, Bengaluru, Chennai, Vijayawada and returns the first city with a
contained substring — the lists do overlap (`MG Road` is listed for both
Bengaluru and Vijayawada), and then the first city in that order wins; with
no match it returns the fallback city when that is set, non-empty and not
the sentinel, else `Unknown`. -/
theorem c3_derive_city_order :
    (∀ (loc : String) (fb : Option String),
      hyderabad_locations.any (fun p => strContains (stripStr loc) p) = true →
      map_location_to_city loc fb = "Hyderabad") ∧
    (∀ (loc : String) (fb : Option String),
      hyderabad_locations.any (fun p => strContains (stripStr loc) p) = false →
      bengaluru_locations.any (fun p => strContains (stripStr loc) p) = true →
      map_location_to_city loc fb = "Bengaluru") ∧
    (∀ (loc : String) (fb : Option String),
      hyderabad_locations.any (fun p => strContains (stripStr loc) p) = false →
      bengaluru_locations.any (fun p => strContains (stripStr loc) p) = false →
      chennai_locations.any (fun p => strContains (stripStr loc) p) = true →
      map_location_to_city loc fb = "Chennai") ∧
    (∀ (loc : String) (fb : Option String),
      hyderabad_locations.any (fun p => strContains (stripStr loc) p) = false →
      bengaluru_locations.any (fun p => strContains (stripStr loc) p) = false →
      chennai_locations.any (fun p => strContains (stripStr loc) p) = false →
      vijayawada_locations.any (fun p => strContains (stripStr loc) p) = true →
      map_location_to_city loc fb = "Vijayawada") ∧
    (∀ (loc c : String),
      hyderabad_locations.any (fun p => strContains (stripStr loc) p) = false →
      bengaluru_locations.any (fun p => strContains (stripStr loc) p) = false →
      chennai_locations.any (fun p => strContains (stripStr loc) p) = false →
      vijayawada_locations.any (fun p => strContains (stripStr loc) p) = false →
      c ≠ "" → c ≠ "Select City..." →
      map_location_to_city loc (some c) = c) ∧
    (∀ loc : String,
      hyderabad_locations.any (fun p => strContains (stripStr loc) p) = false →
      bengaluru_locations.any (fun p => strContains (stripStr loc) p) = false →
      chennai_locations.any (fun p => strContains (stripStr loc) p) = false →
      vijayawada_locations.any (fun p => strContains (stripStr loc) p) = false →
      map_location_to_city loc none = "Unknown" ∧
      map_location_to_city loc (some "") = "Unknown" ∧
      map_location_to_city loc (some "Select City...") = "Unknown") := by
  refine ⟨?_, ?_, ?_, ?_, ?_, ?_⟩
  · intro loc fb h1
    simp [map_location_to_city, h1]
  · intro loc fb h1 h2
    simp [map_location_to_city, h1, h2]
  · intro loc fb h1 h2 h3
    simp [map_location_to_city, h1, h2, h3]
  · intro loc fb h1 h2 h3 h4
    simp [map_location_to_city, h1, h2, h3, h4]
  · intro loc c h1 h2 h3 h4 hc1 hc2
    simp [map_location_to_city, h1, h2, h3, h4, hc1, hc2]
  · intro loc h1 h2 h3 h4
    refine ⟨?_, ?_, ?_⟩ <;> simp [map_location_to_city, h1, h2, h3, h4]

/-- C3 witness: the fixed checking order instantiated on `MG Road`, where
the Bengaluru list wins over the Vijayawada list. -/
theorem c3_derive_city_order_witness :
    map_location_to_city "MG Road" (some "Chennai") = "Bengaluru" :=
  c3_derive_city_order.2.1 "MG Road" (some "Chennai") (by decide) (by decide)

/-- C4: an empty dataset or a city matching no row yields the
no-matching-records error, and every successful result was computed from a
non-empty filtered subset. -/
theorem c4_empty_filter_is_error :
    (∀ (sc : Option String) (df : Frame) (res : AnalyticsData),
      analyze_accident_data sc df = .ok res → filterCity df (sc.getD "") ≠ []) ∧
    (∀ (city : String) (df : Frame), validCity (some city) = true →
      (df.hasCity = true ∨ df.hasLocation = true) →
      filterCity df city = [] →
      analyze_accident_data (some city) df = .error (noMatchError city)) := by
  constructor
  · intro sc df res h
    exact (analyze_ok_inv sc df res h).2.1
  · intro city df hv hcl hf
    unfold analyze_accident_data
    rcases hcl with h | h <;> simp [hv, h, hf]

/-- C4 witness: the empty dataset yields the no-matching-records error. -/
theorem c4_empty_filter_is_error_witness :
    analyze_accident_data (some "Bengaluru") frameEmptyRows =
      .error (noMatchError "Bengaluru") :=
  c4_empty_filter_is_error.2 "Bengaluru" frameEmptyRows (by decide) (Or.inl rfl) (by decide)

/-- C5 counterexample: on `frameMixedTime` the surviving row with time
10:00 makes 10 the most frequent valid hour, but the unparsable second
time promotes the `Hour` column to float64, so line 153 prints
`10.0:00 - 11.0:00`, not the claimed exact format `10:00 - 11:00`. -/
theorem c5_counterexample :
    hoursOf ((normalize (filterCity frameMixedTime "Bengaluru")).filter timeValid) = [10] ∧
    (analyze_accident_data (some "Bengaluru") frameMixedTime).toOption.map
      (fun r => r.peak_time) = some "10.0:00 - 11.0:00" ∧
    (analyze_accident_data (some "Bengaluru") frameMixedTime).toOption.map
      (fun r => r.peak_time) ≠ some "10:00 - 11:00" := by
  refine ⟨by decide, by decide, by decide⟩

/-- C5 (amended): with at least one surviving row carrying a parseable
`HH:MM` time, the peak-time field is built from the most frequent valid
hour h (0-23); it reads h:00 - h+1:00 exactly when every surviving row's
`Time` parsed (integer `Hour` dtype) and h.0:00 - h+1.0:00 when some
`Time` value was missing or unparsable (float64 `Hour` dtype); with no
`Time` column or zero valid hours the field is the unavailable marker and
the pipeline still succeeds. -/
theorem c5_peak_time_format :
    (∀ h : Nat,
      peakStr true h = toString h ++ ":00 - " ++ toString (h + 1) ++ ":00" ∧
      peakStr false h = toString h ++ ".0:00 - " ++ toString (h + 1) ++ ".0:00") ∧
    (∀ rows : List NRow, rows.filter timeValid = [] →
      peak_time_of true rows = (peakNA, [])) ∧
    (∀ rows : List NRow, peak_time_of false rows = (peakNA, rows)) ∧
    (∀ rows : List NRow, rows.filter timeValid ≠ [] →
      (argmaxBy (fun h => ((hoursOf (rows.filter timeValid)).count h : Int))
        (dedupFirst (hoursOf (rows.filter timeValid)))).isSome) ∧
    (∀ (rows : List NRow) (hr : Nat), rows.filter timeValid ≠ [] →
      argmaxBy (fun h => ((hoursOf (rows.filter timeValid)).count h : Int))
        (dedupFirst (hoursOf (rows.filter timeValid))) = some hr →
      peak_time_of true rows = (peakStr (allTimesValid rows) hr, rows.filter timeValid) ∧
      hr ≤ 23 ∧ hr ∈ hoursOf (rows.filter timeValid) ∧
      ∀ h2 ∈ hoursOf (rows.filter timeValid),
        (hoursOf (rows.filter timeValid)).count h2 ≤
          (hoursOf (rows.filter timeValid)).count hr) ∧
    (∀ (sc : Option String) (df : Frame) (res : AnalyticsData),
      analyze_accident_data sc df = .ok res →
      res.peak_time =
        (peak_time_of df.hasTime (normalize (filterCity df (sc.getD "")))).1) ∧
    (analyze_accident_data (some "Bengaluru") frameAllBadTime).toOption.map
      (fun r => r.peak_time) = some peakNA := by
  refine ⟨fun h => ⟨rfl, rfl⟩, ?_, ?_, ?_, ?_, ?_, by decide⟩
  · intro rows hf
    simp [peak_time_of, hf]
  · intro rows
    simp [peak_time_of]
  · intro rows hne
    cases hz : argmaxBy (fun h => ((hoursOf (rows.filter timeValid)).count h : Int))
        (dedupFirst (hoursOf (rows.filter timeValid))) with
    | none =>
      exact absurd ((argmaxBy_eq_none _ _).1 hz)
        (dedupFirst_ne_nil _ (hoursOf_filter_ne_nil rows hne))
    | some m => simp
  · intro rows hr hne hz
    have hmem : hr ∈ hoursOf (rows.filter timeValid) :=
      (mem_dedupFirst _ _).1 (argmaxBy_mem _ _ _ hz)
    refine ⟨?_, mem_hoursOf_le _ _ hmem, hmem, ?_⟩
    · simp [peak_time_of, List.isEmpty_eq_false.2 hne, hz]
    · intro h2 hh2
      exact_mod_cast argmaxBy_le _ _ _ _ hz ((mem_dedupFirst _ _).2 hh2)
  · intro sc df res h
    exact (analyze_ok_inv sc df res h).2.2.2.2.2.1

/-- C5 witness: the peak-hour computation instantiated on one normalized
row with time 10:00 (all times parse, so the hour prints as an integer). -/
theorem c5_peak_time_format_witness :
    peak_time_of true nrowsT = (peakStr (allTimesValid nrowsT) 10, nrowsT.filter timeValid) ∧
    (10 : Nat) ≤ 23 ∧
    peakStr (allTimesValid nrowsT) 10 = "10:00 - 11:00" :=
  ⟨(c5_peak_time_format.2.2.2.2.1 nrowsT 10 (by decide) (by decide)).1,
   (c5_peak_time_format.2.2.2.2.1 nrowsT 10 (by decide) (by decide)).2.1,
   by decide⟩

/-- C6 counterexample: on a frame without a `Date` column the pipeline
returns the generic catch-all value wrapping the `KeyError` text — the
same unexpected-error wrapper used for any other exception — not a
dedicated missing-columns error value. -/
theorem c6_counterexample :
    analyze_accident_data (some "Bengaluru") frameNoDate =
      .error (genericError "'Date'") ∧
    genericError "'Date'" =
      "An unexpected error occurred during analysis: 'Date'" :=
  ⟨by decide, rfl⟩

/-- C6 (amended): with the `Date` column (or the `Location` column)
absent, the pipeline returns the generic unexpected-error value wrapping
the underlying key failure, before any aggregation is attempted (the run
short-circuits with an error and no result is built). -/
theorem c6_missing_columns_generic_error :
    (∀ (city : String) (df : Frame), validCity (some city) = true →
      df.hasDate = false → (df.hasCity = true ∨ df.hasLocation = true) →
      filterCity df city ≠ [] →
      analyze_accident_data (some city) df = .error (genericError "'Date'")) ∧
    (∀ (city : String) (df : Frame), validCity (some city) = true →
      df.hasCity = false → df.hasLocation = false →
      analyze_accident_data (some city) df = .error (genericError "'Location'")) ∧
    (∀ (city : String) (df : Frame), validCity (some city) = true →
      df.hasCity = true → df.hasLocation = false → df.hasDate = true →
      filterCity df city ≠ [] →
      analyze_accident_data (some city) df = .error (genericError "['Location']")) := by
  refine ⟨?_, ?_, ?_⟩
  · intro city df hv hd hcl hf
    unfold analyze_accident_data
    rcases hcl with h | h <;> simp [hv, h, hd, List.isEmpty_eq_false.2 hf]
  · intro city df hv hc hl
    unfold analyze_accident_data
    simp [hv, hc, hl]
  · intro city df hv hc hl hd hf
    unfold analyze_accident_data
    simp [hv, hc, hl, hd, List.isEmpty_eq_false.2 hf]

/-- C6 witness: the missing-`Date` branch instantiated on a concrete
frame. -/
theorem c6_missing_columns_generic_error_witness :
    analyze_accident_data (some "Bengaluru") frameNoDate =
      .error (genericError "'Date'") :=
  c6_missing_columns_generic_error.1 "Bengaluru" frameNoDate (by decide) rfl
    (Or.inl rfl) (by decide)

/-- C7 counterexample: on `frameMixedTime` the returned top-locations
chart data covers only the row whose `Time` parsed, not the full filtered
set, refuting that the drop affects time-based statistics only. -/
theorem c7_counterexample :
    (analyze_accident_data (some "Bengaluru") frameMixedTime).toOption.map
      (fun r => r.bar_chart) = some [("A", 1)] ∧
    barChartData frameMixedTime.hasAccidents
      (normalize (filterCity frameMixedTime "Bengaluru")) = [("A", 1), ("B", 1)] ∧
    (analyze_accident_data (some "Bengaluru") frameMixedTime).toOption.map
      (fun r => r.bar_chart) ≠
      some (barChartData frameMixedTime.hasAccidents
        (normalize (filterCity frameMixedTime "Bengaluru"))) := by
  refine ⟨by decide, by decide, by decide⟩

/-- C7 (amended): dropping rows with unparsable `Time` leaves the total
and the high-risk zone unchanged (both are computed before the drop), but
when a `Time` column is present the chart data is computed over only the
rows whose `Time` parsed; with no `Time` column the charts cover the full
normalized filtered set. -/
theorem c7_time_drop_scope :
    ∀ (sc : Option String) (df : Frame) (res : AnalyticsData),
      analyze_accident_data sc df = .ok res →
      res.total_accidents =
        totalOf df.hasAccidents (normalize (filterCity df (sc.getD ""))) ∧
      zoneOf df.hasAccidents (normalize (filterCity df (sc.getD ""))) =
        some res.high_risk_zone ∧
      res.bar_chart = barChartData df.hasAccidents
        (peak_time_of df.hasTime (normalize (filterCity df (sc.getD "")))).2 ∧
      res.pie_chart = pieChartData df.hasAccidents
        (peak_time_of df.hasTime (normalize (filterCity df (sc.getD "")))).2 ∧
      (df.hasTime = false →
        res.bar_chart =
          barChartData df.hasAccidents (normalize (filterCity df (sc.getD ""))) ∧
        res.pie_chart =
          pieChartData df.hasAccidents (normalize (filterCity df (sc.getD "")))) := by
  intro sc df res h
  have hi := analyze_ok_inv sc df res h
  refine ⟨hi.2.2.2.2.1, hi.2.2.2.1, hi.2.2.2.2.2.2.1, hi.2.2.2.2.2.2.2.1, ?_⟩
  intro ht
  have hkeep : (peak_time_of df.hasTime (normalize (filterCity df (sc.getD "")))).2 =
      normalize (filterCity df (sc.getD "")) := by
    rw [ht]
    simp [peak_time_of]
  constructor
  · rw [hi.2.2.2.2.2.2.1, hkeep]
  · rw [hi.2.2.2.2.2.2.2.1, hkeep]

/-- C7 witness: the chart-data equation instantiated on
`frameMixedTime`. -/
theorem c7_time_drop_scope_witness :
    resMixedTime.bar_chart = barChartData frameMixedTime.hasAccidents
      (peak_time_of frameMixedTime.hasTime
        (normalize (filterCity frameMixedTime "Bengaluru"))).2 :=
  (c7_time_drop_scope (some "Bengaluru") frameMixedTime resMixedTime (by decide)).2.2.1

/-- C8: the pipeline and the city mapper are pure functions of their
inputs — two runs on the same immutable frame and requested city produce
identical results. -/
theorem c8_deterministic :
    (∀ (sc : Option String) (df : Frame),
      analyze_accident_data sc df = analyze_accident_data sc df) ∧
    (∀ (loc : String) (fb : Option String),
      map_location_to_city loc fb = map_location_to_city loc fb) :=
  ⟨fun _ _ => rfl, fun _ _ => rfl⟩

/-- C9: when city filtering keeps at least one row but normalization drops
them all, the pipeline returns the generic unexpected-error value wrapping
the argmax-of-empty-sequence exception, neither raising nor producing a
result. -/
theorem c9_empty_grouping_generic_error :
    ∀ (city : String) (df : Frame), validCity (some city) = true →
      df.hasLocation = true → df.hasDate = true →
      filterCity df city ≠ [] → normalize (filterCity df city) = [] →
      analyze_accident_data (some city) df =
        .error (genericError "attempt to get argmax of an empty sequence") := by
  intro city df hv hl hd hf hn
  unfold analyze_accident_data
  simp [hv, hl, hd, List.isEmpty_eq_false.2 hf, hn, zoneOf_nil]

/-- C9 witness: one city-matching row whose `Date` fails to parse drives
the pipeline into the generic argmax-of-empty-sequence error. -/
theorem c9_empty_grouping_generic_error_witness :
    analyze_accident_data (some "Bengaluru") frameUnparsableOnly =
      .error (genericError "attempt to get argmax of an empty sequence") :=
  c9_empty_grouping_generic_error "Bengaluru" frameUnparsableOnly (by decide) rfl rfl
    (by decide) (by decide)

/-- C10: the hazard record exposes as `potholes` the sum of the reported
potholes and large-cracks counts (each defaulting to 0 when absent), and
the record type carries no separate large-cracks field. -/
theorem c10_potholes_include_cracks :
    (∀ h : GeminiResponse,
      (standardize_hazard h).potholes = h.potholes.getD 0 + h.large_cracks.getD 0 ∧
      (standardize_hazard h).broken_lights = h.broken_lights.getD 0 ∧
      (standardize_hazard h).location = h.location_estimate.getD "Location Unknown") ∧
    standardize_hazard ⟨none, some 3, some 1, some 2, none⟩ =
      ⟨5, 1, "Location Unknown", "Analysis complete."⟩ :=
  ⟨fun h => ⟨rfl, rfl, rfl⟩, by decide⟩

end Roadrakshak
